import Mathlib

/-!
Verification development for the Coach-Clippi cross-process bridge
(native wrapper, window embedding manager, remote module loader,
communication channel, in-process render hook).

The C++ sources under `src/native-wrapper` and `src/overlay` are shallowly
embedded: Win32 handles become naturals (0 = null), window state becomes an
explicit association list from handle to attributes, and the OS calls that can
fail (SetParent, VirtualAllocEx, WriteFile, ...) are given success oracles so
every control-flow branch of the source is represented.
-/

namespace CoachClippi

/-! ## Basic string machinery (std::string::find / find_first_of / stoi) -/

/-- Source: `startsWithL pat s` — `pat` is a prefix of `s` (character lists). -/
def startsWithL : List Char → List Char → Bool
  | [], _ => true
  | _ :: _, [] => false
  | p :: ps, c :: cs => p == c && startsWithL ps cs

/-- Source: `containsSub pat hay` — `hay.find(pat) != npos` in `std::string` terms. -/
def containsSub (pat : List Char) : List Char → Bool
  | [] => startsWithL pat []
  | c :: rest => startsWithL pat (c :: rest) || containsSub pat rest

/-- Index of the first occurrence of `pat` in the haystack
(`std::string::find`). -/
def findSub (pat : List Char) : List Char → Option Nat
  | [] => if startsWithL pat [] then some 0 else none
  | c :: rest =>
    if startsWithL pat (c :: rest) then some 0
    else (findSub pat rest).map (· + 1)

/-- Index of the first character of the haystack that belongs to `cs`
(`std::string::find_first_of`). -/
def findCharIn (cs : List Char) : List Char → Option Nat
  | [] => none
  | c :: rest =>
    if cs.contains c then some 0
    else (findCharIn cs rest).map (· + 1)

/-- Leading decimal digits of a character list. -/
def takeDigits (s : List Char) : List Char := s.takeWhile (·.isDigit)

/-- Value of a digit string, most significant digit first. -/
def digitsToNat (ds : List Char) : Nat :=
  ds.foldl (fun a c => a * 10 + (c.toNat - '0'.toNat)) 0

/-- Model of `std::stoi`: skip whitespace, optional sign, then at least one
digit (further characters are ignored); `none` models both the
`std::invalid_argument` exception (no conversion possible) and the
`std::out_of_range` exception (value outside the 32-bit `int` range
[-2147483648, 2147483647]). -/
def stoiModel (s : List Char) : Option Int :=
  let t := s.dropWhile (fun c => c == ' ' || c == '\t' || c == '\n' || c == '\r')
  match t with
  | [] => none
  | c :: rest =>
    if c == '-' then
      if (takeDigits rest).isEmpty then none
      else if (2147483648 : Int) < (digitsToNat (takeDigits rest) : Int) then
        none
      else some (-(digitsToNat (takeDigits rest) : Int))
    else if c == '+' then
      if (takeDigits rest).isEmpty then none
      else if (2147483647 : Int) < (digitsToNat (takeDigits rest) : Int) then
        none
      else some ((digitsToNat (takeDigits rest) : Int))
    else
      if (takeDigits (c :: rest)).isEmpty then none
      else if (2147483647 : Int) <
          (digitsToNat (takeDigits (c :: rest)) : Int) then none
      else some ((digitsToNat (takeDigits (c :: rest)) : Int))

/-! ## GameDataInterface: telemetry/event relay (GameDataInterface.cpp) -/

/-- Source: `GameEvent::Type` (GameDataInterface.h); `GAME_START` is enumerator 0. -/
inductive GameEventType where
  | GAME_START
  | GAME_END
  | STOCK_LOST
  | COMBO_START
  | COMBO_END
  | KILL
  | TECH
  | EDGEGUARD
  | NEUTRAL_WIN
deriving DecidableEq, Repr

/-- Numeric value of each `GameEvent::Type` enumerator. -/
def GameEventType.toCode : GameEventType → Nat
  | .GAME_START => 0
  | .GAME_END => 1
  | .STOCK_LOST => 2
  | .COMBO_START => 3
  | .COMBO_END => 4
  | .KILL => 5
  | .TECH => 6
  | .EDGEGUARD => 7
  | .NEUTRAL_WIN => 8

/-- Source: `struct GameEvent` (timestamp kept as the raw tick count). -/
structure GameEvent where
  type : GameEventType
  playerId : Int
  timestamp : Nat
  data : List Char
deriving DecidableEq, Repr

/-- Source: `GameDataInterface::ParseGameEvent`: classify the frame by quoted
discriminator substrings (zero-initialised event defaults to `GAME_START`),
append to `m_recentEvents`, drop the oldest entry when the buffer exceeds 100,
and return the event handed to `NotifyGameEvent`. -/
def parseGameEvent (recentEvents : List GameEvent) (tick : Nat)
    (data : List Char) : List GameEvent × GameEvent :=
  let ty : GameEventType :=
    if containsSub ("\"combo\"".toList) data then .COMBO_START
    else if containsSub ("\"kill\"".toList) data then .KILL
    else if containsSub ("\"stock\"".toList) data then .STOCK_LOST
    else .GAME_START
  let event : GameEvent := { type := ty, playerId := 0, timestamp := tick, data := data }
  let buf := recentEvents ++ [event]
  let buf := if buf.length > 100 then buf.drop 1 else buf
  (buf, event)

/-- Source: `GameDataInterface::ParseGameStateUpdate`: locate `"frame":`, skip the
8-character key, cut at the first `,` or `}`, and `std::stoi` the slice into
`m_currentGameState.frameCount`; `Except.error` models the uncaught
`std::stoi` exception. -/
def parseGameStateUpdate (frameCount : Int) (data : List Char) :
    Except Unit Int :=
  match findSub ("\"frame\":".toList) data with
  | none => .ok frameCount
  | some framePos =>
    let valueStart := framePos + 8
    match (findCharIn [',', '}'] (data.drop valueStart)).map (· + valueStart) with
    | none => .ok frameCount
    | some endPos =>
      match stoiModel ((data.drop valueStart).take (endPos - valueStart)) with
      | none => .error ()
      | some v => .ok v

/-- Source: `GameDataInterface::ProcessIncomingData`: dispatch on the type
discriminator; returns the new frame counter, the new event buffer, and the
event delivered to the callback (if any). -/
def processIncomingData (frameCount : Int) (recentEvents : List GameEvent)
    (tick : Nat) (data : List Char) :
    Except Unit (Int × List GameEvent × Option GameEvent) :=
  if containsSub ("\"type\":\"gameState\"".toList) data then
    (parseGameStateUpdate frameCount data).map (fun fc => (fc, recentEvents, none))
  else if containsSub ("\"type\":\"event\"".toList) data then
    let r := parseGameEvent recentEvents tick data
    .ok (frameCount, r.1, some r.2)
  else
    .ok (frameCount, recentEvents, none)

/-- Event buffer after a whole sequence of deliveries (each delivery is a
tick/payload pair fed to `ParseGameEvent`), starting from a buffer. -/
def deliverEvents (buf : List GameEvent) (items : List (Nat × List Char)) :
    List GameEvent :=
  items.foldl (fun b it => (parseGameEvent b it.1 it.2).1) buf

/-- The event `ParseGameEvent` constructs for one delivery. -/
def mkGameEvent (tick : Nat) (data : List Char) : GameEvent :=
  (parseGameEvent [] tick data).2

/-! ## Remote module loader (GameDataInterface.cpp, DLL injection) -/

/-- Source: `struct InjectedProcess` (GameDataInterface.h): one InjectionRecord. -/
structure InjectedProcess where
  processId : Nat
  processHandle : Nat
  dllModule : Nat
deriving DecidableEq, Repr

/-- Success/failure oracle for the Win32 calls `InjectDLLIntoProcess` makes:
`OpenProcess`, `VirtualAllocEx`, `WriteProcessMemory`,
`GetModuleHandle`/`GetProcAddress`, `CreateRemoteThread`, and the remote
thread's exit code (the `HMODULE` returned by `LoadLibraryW`; 0 = null). -/
structure InjectEnv where
  openOk : Bool
  allocOk : Bool
  writeOk : Bool
  resolveOk : Bool
  threadOk : Bool
  exitCode : Nat
  handle : Nat
deriving DecidableEq, Repr

/-- Source: `GameDataInterface::IsDLLInjected`. -/
def isDLLInjected (procs : List InjectedProcess) (pid : Nat) : Bool :=
  procs.any (·.processId == pid)

/-- Source: `GameDataInterface::InjectDLLIntoProcess`: each failed stage returns
`false` having registered nothing; on success (all stages succeed and the
remote thread's exit value is non-null) an `InjectedProcess` record is
appended. -/
def injectDLLIntoProcess (procs : List InjectedProcess) (env : InjectEnv)
    (pid : Nat) : Bool × List InjectedProcess :=
  if !env.openOk then (false, procs)
  else if !env.allocOk then (false, procs)
  else if !env.writeOk then (false, procs)
  else if !env.resolveOk then (false, procs)
  else if !env.threadOk then (false, procs)
  else if env.exitCode == 0 then (false, procs)
  else (true, procs ++ [{ processId := pid, processHandle := env.handle,
                          dllModule := env.exitCode }])

/-- Source: `GameDataInterface::InjectDLL`: no-op success when the pid already has a
record; fails when the helper DLL path resolves to no existing file
(`GetDLLPath` returned empty); otherwise performs the injection. -/
def injectDLL (procs : List InjectedProcess) (env : InjectEnv)
    (dllPathFound : Bool) (pid : Nat) : Bool × List InjectedProcess :=
  if isDLLInjected procs pid then (true, procs)
  else if !dllPathFound then (false, procs)
  else injectDLLIntoProcess procs env pid

/-- Source: `GameDataInterface::EjectDLLFromProcess`: no record means `false`;
otherwise the record is erased and `true` returned (the remote `FreeLibrary`
thread is attempted but its failure does not change the result). -/
def ejectDLLFromProcess (procs : List InjectedProcess) (pid : Nat) :
    Bool × List InjectedProcess :=
  if isDLLInjected procs pid then
    (true, procs.eraseP (·.processId == pid))
  else (false, procs)

/-- Success/failure oracle for the Win32 calls `DllInjector::InjectDll`
(dll_injector.cpp) makes: `OpenProcess`, `VirtualAllocEx`,
`WriteProcessMemory`, `GetModuleHandleA`, `GetProcAddress`,
`CreateRemoteThread`; `exitCode` is the remote thread's exit value (the
`HMODULE` returned by `LoadLibraryA`, 0 = null). -/
structure DllInjectorEnv where
  openOk : Bool
  allocOk : Bool
  writeOk : Bool
  kernel32Ok : Bool
  resolveOk : Bool
  threadOk : Bool
  exitCode : Nat
deriving DecidableEq, Repr

/-- Source: `DllInjector::InjectDll` (dll_injector.cpp): each failed stage
returns `false`; once `CreateRemoteThread` succeeds it waits, cleans up, and
returns `true` — the remote thread's exit value is never read, so a null
loaded-module reference still yields `true`. -/
def dllInjectorInjectDll (env : DllInjectorEnv) : Bool :=
  if !env.openOk then false
  else if !env.allocOk then false
  else if !env.writeOk then false
  else if !env.kernel32Ok then false
  else if !env.resolveOk then false
  else if !env.threadOk then false
  else true

/-! ## Window embedding manager (WindowManager.cpp) -/

/-- Win32 `RECT`. -/
structure Rect where
  left : Int
  top : Int
  right : Int
  bottom : Int
deriving DecidableEq, Repr

/-- The attributes of one live window that the manager reads and writes. -/
structure WindowState where
  parent : Nat
  style : Nat
  exStyle : Nat
  rect : Rect
  maximized : Bool
deriving DecidableEq, Repr

/-- The window table: handle → state; a handle absent from the table is a
dead window (`IsWindow` = false). -/
abbrev WinTable := List (Nat × WindowState)

/-- Window lookup by handle. -/
def lookupWin : WinTable → Nat → Option WindowState
  | [], _ => none
  | (k, w) :: rest, h => if k == h then some w else lookupWin rest h

/-- Win32 `IsWindow`. -/
def isWindow (os : WinTable) (h : Nat) : Bool :=
  (lookupWin os h).isSome

/-- Update the state of window `h` (identity on a dead handle). -/
def updWin : WinTable → Nat → (WindowState → WindowState) → WinTable
  | [], _, _ => []
  | (k, w) :: rest, h, f =>
    if k == h then (k, f w) :: updWin rest h f
    else (k, w) :: updWin rest h f

def WS_CAPTION : Nat := 0x00C00000
def WS_THICKFRAME : Nat := 0x00040000
def WS_MINIMIZEBOX : Nat := 0x00020000
def WS_MAXIMIZEBOX : Nat := 0x00010000
def WS_SYSMENU : Nat := 0x00080000
def WS_BORDER : Nat := 0x00800000
def WS_CHILD : Nat := 0x40000000
def WS_CLIPSIBLINGS : Nat := 0x04000000
def WS_EX_DLGMODALFRAME : Nat := 0x00000001
def WS_EX_WINDOWEDGE : Nat := 0x00000100
def WS_EX_CLIENTEDGE : Nat := 0x00000200
def WS_EX_STATICEDGE : Nat := 0x00020000
def WS_EX_OVERLAPPEDWINDOW : Nat := WS_EX_WINDOWEDGE ||| WS_EX_CLIENTEDGE
def WS_EX_PALETTEWINDOW : Nat := 0x00000188
def MASK32 : Nat := 0xFFFFFFFF

/-- Source: `struct EmbeddedWindowInfo` (WindowManager.h): one EmbeddingRecord. -/
structure EmbeddedWindowInfo where
  gameWindow : Nat
  originalParent : Nat
  originalStyle : Nat
  originalExStyle : Nat
  originalRect : Rect
  wasMaximized : Bool
deriving DecidableEq, Repr

/-- Source: `WindowManager::SaveWindowState`: capture parent, style, extended style,
bounding rectangle, and maximized flag of the (live) window. -/
def saveWindowState (h : Nat) (w : WindowState) : EmbeddedWindowInfo :=
  { gameWindow := h
    originalParent := w.parent
    originalStyle := w.style
    originalExStyle := w.exStyle
    originalRect := w.rect
    wasMaximized := w.maximized }

/-- Source: `WindowManager::ApplyEmbeddedStyle`: strip decorations, add
`WS_CHILD | WS_CLIPSIBLINGS`, and clear the listed extended styles. -/
def applyEmbeddedStyle (os : WinTable) (h : Nat) : WinTable :=
  updWin os h fun w =>
    let style := (w.style &&&
      (MASK32 ^^^ (WS_CAPTION ||| WS_THICKFRAME ||| WS_MINIMIZEBOX |||
                   WS_MAXIMIZEBOX ||| WS_SYSMENU ||| WS_BORDER)))
      ||| (WS_CHILD ||| WS_CLIPSIBLINGS)
    let exStyle := w.exStyle &&&
      (MASK32 ^^^ (WS_EX_DLGMODALFRAME ||| WS_EX_WINDOWEDGE |||
                   WS_EX_CLIENTEDGE ||| WS_EX_STATICEDGE |||
                   WS_EX_OVERLAPPEDWINDOW ||| WS_EX_PALETTEWINDOW))
    { w with style := style, exStyle := exStyle }

/-- Oracle for the fallible Win32 calls inside `EmbedGameWindow`:
`SetParent`, `GetClientRect` on the parent, and the positioning
`SetWindowPos`. -/
structure EmbedEnv where
  setParentOk : Bool
  getClientRectOk : Bool
  setWindowPosOk : Bool
deriving DecidableEq, Repr

/-- Source: `WindowManager::EmbedGameWindow`: validate both windows, return success
immediately if already embedded, save the original state, reparent (aborting
with no mutation if `SetParent` fails), strip styles, fill the parent's
client area (failures here tolerated), and store the record. -/
def embedGameWindow (os : WinTable) (env : EmbedEnv)
    (mgr : List EmbeddedWindowInfo) (parentWindow gameWindow : Nat) :
    Bool × WinTable × List EmbeddedWindowInfo :=
  match lookupWin os gameWindow with
  | none => (false, os, mgr)
  | some gw =>
    match lookupWin os parentWindow with
    | none => (false, os, mgr)
    | some pw =>
      if mgr.any (·.gameWindow == gameWindow) then (true, os, mgr)
      else
        let embedInfo := saveWindowState gameWindow gw
        if !env.setParentOk then (false, os, mgr)
        else
          let os1 := updWin os gameWindow (fun w => { w with parent := parentWindow })
          let os2 := applyEmbeddedStyle os1 gameWindow
          let os3 :=
            if env.getClientRectOk then
              let clientWidth := pw.rect.right - pw.rect.left
              let clientHeight := pw.rect.bottom - pw.rect.top
              if env.setWindowPosOk then
                updWin os2 gameWindow (fun w =>
                  { w with rect := ⟨0, 0, clientWidth, clientHeight⟩ })
              else os2
            else os2
          (true, os3, mgr ++ [embedInfo])

/-- Source: `WindowManager::RestoreWindowState`: no-op on a dead window; otherwise
restore parent, style, extended style, rectangle, and re-apply the maximized
state if it had been set — in that order. -/
def restoreWindowState (os : WinTable) (info : EmbeddedWindowInfo) :
    WinTable :=
  if isWindow os info.gameWindow then
    updWin os info.gameWindow fun w =>
      let w := { w with parent := info.originalParent }
      let w := { w with style := info.originalStyle }
      let w := { w with exStyle := info.originalExStyle }
      let w := { w with rect := info.originalRect }
      if info.wasMaximized then { w with maximized := true } else w
  else os

/-- Source: `WindowManager::RestoreGameWindow`: find the record for the window,
restore from it, erase it, and report whether a record was found. -/
def restoreGameWindow (os : WinTable) (mgr : List EmbeddedWindowInfo)
    (gameWindow : Nat) : Bool × WinTable × List EmbeddedWindowInfo :=
  match mgr.find? (·.gameWindow == gameWindow) with
  | some info =>
    (true, restoreWindowState os info, mgr.eraseP (·.gameWindow == gameWindow))
  | none => (false, os, mgr)

/-- Source: `WindowManager::UpdateGameWindowPosition`: no-op on a dead game window;
otherwise move/size the game window to `gameArea` (the synchronized refresh
repaints but does not alter the modelled state). -/
def updateGameWindowPosition (os : WinTable) (gameWindow : Nat)
    (gameArea : Rect) : WinTable :=
  if isWindow os gameWindow then
    updWin os gameWindow (fun w => { w with rect := gameArea })
  else os

/-- Source: `WindowManager::~WindowManager`: restore every still-tracked record, then
clear the list. -/
def windowManagerShutdown (os : WinTable) (mgr : List EmbeddedWindowInfo) :
    WinTable × List EmbeddedWindowInfo :=
  (mgr.foldl restoreWindowState os, [])

/-! ## In-process render hook (overlay_simple.cpp) -/

/-- Source: `enum class MessagePosition`. -/
inductive MessagePos where
  | AUTO | TOP_LEFT | TOP_CENTER | TOP_RIGHT | MIDDLE_LEFT | MIDDLE_CENTER
  | MIDDLE_RIGHT | BOTTOM_LEFT | BOTTOM_CENTER | BOTTOM_RIGHT
deriving DecidableEq, Repr

/-- Source: `enum class MessageCategory`. -/
inductive MessageCategory where
  | GENERAL | TECHNICAL | POSITIONING | COMBO | DEFENSIVE | OFFENSIVE | NEUTRAL
deriving DecidableEq, Repr

/-- Source: `enum class MessagePriority`. -/
inductive MessagePriority where
  | LOW | NORMAL | HIGH | CRITICAL
deriving DecidableEq, Repr

/-- Source: `struct OverlayMessage` (overlay_simple.h); duration in milliseconds. -/
structure OverlayMessage where
  text : List Char
  duration : Nat
  position : MessagePos
  category : MessageCategory
  priority : MessagePriority
deriving DecidableEq, Repr

/-- Source: `struct ActiveMessage` (overlay_simple.cpp): an overlay message once its
display lifetime began; times are `GetTickCount` values (DWORD ms). -/
structure ActiveMessage where
  text : List Char
  startTime : Nat
  duration : Nat
  position : MessagePos
  category : MessageCategory
  priority : MessagePriority
  alpha : ℚ
deriving DecidableEq, Repr

/-- 32-bit wrapping subtraction, the semantics of `DWORD` `now - start`. -/
def dwordSub (now start : Nat) : Nat :=
  (now + 2 ^ 32 - start % 2 ^ 32) % 2 ^ 32

/-- Source: `RenderThread`'s queue drain: an `OverlayMessage` becomes an
`ActiveMessage` stamped with the current tick and alpha 1.0. -/
def convertMessage (now : Nat) (m : OverlayMessage) : ActiveMessage :=
  { text := m.text
    startTime := now
    duration := m.duration
    position := m.position
    category := m.category
    priority := m.priority
    alpha := 1 }

/-- The `WM_PAINT` pruning pass of `OverlayWndProc`: a message whose elapsed
time exceeds its duration is erased; the survivors are exactly the draw set
of that paint. -/
def paintPrune (now : Nat) (msgs : List ActiveMessage) : List ActiveMessage :=
  msgs.filter (fun m => !(dwordSub now m.startTime > m.duration))

/-- The fade alpha `OverlayWndProc` computes for a drawn message: 1.0 until
`timeProgress` passes 0.8, then a linear ramp down, clamped to [0, 1]
(exact-rational model of the float arithmetic). -/
def fadeAlpha (now start duration : Nat) : ℚ :=
  let timeProgress : ℚ := (dwordSub now start : ℚ) / (duration : ℚ)
  let alpha : ℚ :=
    if timeProgress > 4/5 then 1 - (timeProgress - 4/5) / (1/5) else 1
  max 0 (min 1 alpha)

/-! ## Communication channel senders (overlay_native.cpp, communication.cpp) -/

/-- The controller-side `Communication` endpoint state: whether `m_pipe` is a
valid handle. The component has no send queue, so this is its entire mutable
state on the send path. -/
structure CommState where
  pipeValid : Bool
deriving DecidableEq, Repr

/-- Source: `Communication::SendMessage` (overlay_native.cpp): `false` on an invalid
pipe handle; otherwise true iff `WriteFile` succeeded and wrote the full
payload. The state is returned to record that nothing is buffered. -/
def commSendMessage (st : CommState) (msgLen : Nat)
    (writeResult : Option Nat) : Bool × CommState :=
  if !st.pipeValid then (false, st)
  else
    match writeResult with
    | none => (false, st)
    | some n => (n == msgLen, st)

/-- Source: `NamedPipeClient::SendMessage` (communication.cpp): `false` on an invalid
pipe handle; otherwise the bare success of `WriteFile`. -/
def pipeClientSendMessage (pipeValid : Bool) (writeResult : Option Nat) :
    Bool :=
  if !pipeValid then false else writeResult.isSome

/-! ## Helper lemmas -/

theorem startsWithL_of_append {p q s : List Char}
    (h : startsWithL (p ++ q) s = true) : startsWithL p s = true := by
  induction p generalizing s with
  | nil => rfl
  | cons a ps ih =>
    cases s with
    | nil => simp [startsWithL] at h
    | cons c cs =>
      simp only [List.cons_append, startsWithL, Bool.and_eq_true] at h ⊢
      exact ⟨h.1, ih h.2⟩

theorem containsSub_of_startsWithL {p s : List Char}
    (h : startsWithL p s = true) : containsSub p s = true := by
  cases s with
  | nil => simpa [containsSub] using h
  | cons c cs => simp [containsSub, h]

theorem containsSub_of_cons_append {a : Char} {p q s : List Char}
    (h : containsSub (a :: (p ++ q)) s = true) : containsSub p s = true := by
  induction s with
  | nil => simp [containsSub, startsWithL] at h
  | cons c cs ih =>
    simp only [containsSub, Bool.or_eq_true] at h ⊢
    rcases h with h | h
    · simp only [startsWithL, Bool.and_eq_true] at h
      exact Or.inr (containsSub_of_startsWithL (startsWithL_of_append h.2))
    · exact Or.inr (ih h)

theorem containsSub_quoted_false {inner s : List Char}
    (h : containsSub inner s = false) :
    containsSub ('"' :: (inner ++ ['"'])) s = false := by
  cases hq : containsSub ('"' :: (inner ++ ['"'])) s with
  | false => rfl
  | true => exact absurd (containsSub_of_cons_append hq) (by simp [h])

theorem findCharIn_append {cs ds : List Char} {d : Char} (suf : List Char)
    (hds : ∀ c ∈ ds, cs.contains c = false) (hd : cs.contains d = true) :
    findCharIn cs (ds ++ d :: suf) = some ds.length := by
  induction ds with
  | nil =>
    show findCharIn cs (d :: suf) = some 0
    unfold findCharIn
    rw [hd]
    simp
  | cons c rest ih =>
    show findCharIn cs (c :: (rest ++ d :: suf)) = some (rest.length + 1)
    unfold findCharIn
    rw [hds c (by simp)]
    simp only [Bool.false_eq_true, if_false]
    rw [ih (fun x hx => hds x (by simp [hx]))]
    rfl

theorem isDigit_not_delim {c : Char} (h : c.isDigit = true) :
    ([',', '}'].contains c) = false := by
  have h1 : c ≠ ',' := by rintro rfl; exact absurd h (by decide)
  have h2 : c ≠ '}' := by rintro rfl; exact absurd h (by decide)
  simp [List.contains_cons, h1, h2]

theorem isDigit_not_space {c : Char} (h : c.isDigit = true) :
    (c == ' ' || c == '\t' || c == '\n' || c == '\r') = false := by
  have h1 : c ≠ ' ' := by rintro rfl; exact absurd h (by decide)
  have h2 : c ≠ '\t' := by rintro rfl; exact absurd h (by decide)
  have h3 : c ≠ '\n' := by rintro rfl; exact absurd h (by decide)
  have h4 : c ≠ '\r' := by rintro rfl; exact absurd h (by decide)
  simp [h1, h2, h3, h4]

theorem stoiModel_digits {ds : List Char} (hne : ds ≠ [])
    (hdig : ∀ c ∈ ds, c.isDigit = true)
    (hbound : digitsToNat ds ≤ 2147483647) :
    stoiModel ds = some ((digitsToNat ds : Int)) := by
  obtain ⟨c, rest, rfl⟩ : ∃ c rest, ds = c :: rest := by
    cases ds with
    | nil => exact absurd rfl hne
    | cons c rest => exact ⟨c, rest, rfl⟩
  have hc := hdig c (by simp)
  have hminus : c ≠ '-' := by rintro rfl; exact absurd hc (by decide)
  have hplus : c ≠ '+' := by rintro rfl; exact absurd hc (by decide)
  have htd : takeDigits (c :: rest) = c :: rest :=
    List.takeWhile_eq_self_iff.mpr hdig
  have hno : ¬ ((2147483647 : Int) < (digitsToNat (c :: rest) : Int)) := by
    rw [not_lt]
    exact_mod_cast hbound
  simp only [stoiModel, List.dropWhile_cons, isDigit_not_space hc,
    Bool.false_eq_true, if_false, hminus, hplus, beq_iff_eq, htd,
    List.isEmpty_cons, hno]

theorem lookupWin_updWin_self (os : WinTable) (h : Nat)
    (f : WindowState → WindowState) :
    lookupWin (updWin os h f) h = (lookupWin os h).map f := by
  induction os with
  | nil => rfl
  | cons p rest ih =>
    obtain ⟨k, w⟩ := p
    cases hk : (k == h) with
    | true => simp [updWin, lookupWin, hk]
    | false => simp [updWin, lookupWin, hk, ih]

theorem lookupWin_updWin_ne (os : WinTable) {h h' : Nat}
    (f : WindowState → WindowState) (hne : h' ≠ h) :
    lookupWin (updWin os h f) h' = lookupWin os h' := by
  induction os with
  | nil => rfl
  | cons p rest ih =>
    obtain ⟨k, w⟩ := p
    cases hk : (k == h) with
    | true =>
      have hkh : k = h := by simpa using hk
      have hk2 : (k == h') = false := by
        simp only [beq_eq_false_iff_ne, ne_eq, hkh]
        exact fun e => hne e.symm
      simp [updWin, lookupWin, hk, hk2, ih]
    | false =>
      cases hk' : (k == h') with
      | true => simp [updWin, lookupWin, hk, hk']
      | false => simp [updWin, lookupWin, hk, hk', ih]

theorem isWindow_updWin (os : WinTable) (h h' : Nat)
    (f : WindowState → WindowState) :
    isWindow (updWin os h f) h' = isWindow os h' := by
  by_cases he : h' = h
  · subst he
    simp [isWindow, lookupWin_updWin_self]
  · simp [isWindow, lookupWin_updWin_ne os f he]

theorem find?_append_right {α : Type} (p : α → Bool) (L₁ L₂ : List α)
    (h : ∀ a ∈ L₁, p a = false) :
    (L₁ ++ L₂).find? p = L₂.find? p := by
  induction L₁ with
  | nil => rfl
  | cons a rest ih =>
    simp only [List.cons_append, List.find?, h a (by simp)]
    exact ih (fun x hx => h x (by simp [hx]))

theorem dwordSub_of_le {start now : Nat} (h1 : start ≤ now)
    (h2 : now < 2 ^ 32) : dwordSub now start = now - start := by
  unfold dwordSub
  have hs : start % 2 ^ 32 = start := Nat.mod_eq_of_lt (by omega)
  rw [hs]
  have he : now + 2 ^ 32 - start = (now - start) + 2 ^ 32 := by omega
  rw [he, Nat.add_mod_right]
  exact Nat.mod_eq_of_lt (by omega)

/-! ## Claim theorems -/

theorem injectDLLIntoProcess_failure_cases (procs : List InjectedProcess)
    (env : InjectEnv) (pid : Nat) :
    (env.openOk = false → injectDLLIntoProcess procs env pid = (false, procs)) ∧
    (env.allocOk = false → injectDLLIntoProcess procs env pid = (false, procs)) ∧
    (env.writeOk = false → injectDLLIntoProcess procs env pid = (false, procs)) ∧
    (env.resolveOk = false → injectDLLIntoProcess procs env pid = (false, procs)) ∧
    (env.threadOk = false → injectDLLIntoProcess procs env pid = (false, procs)) ∧
    (env.exitCode = 0 → injectDLLIntoProcess procs env pid = (false, procs)) ∧
    ((injectDLLIntoProcess procs env pid).1 = false ↔
      (env.openOk = false ∨ env.allocOk = false ∨ env.writeOk = false ∨
       env.resolveOk = false ∨ env.threadOk = false ∨ env.exitCode = 0)) := by
  obtain ⟨o, a, w, r, t, ec, hd⟩ := env
  by_cases hec : ec = 0 <;>
    cases o <;> cases a <;> cases w <;> cases r <;> cases t <;>
      simp [injectDLLIntoProcess, hec]

theorem dllInjector_failure_cases (env : DllInjectorEnv) :
    (env.openOk = false → dllInjectorInjectDll env = false) ∧
    (env.allocOk = false → dllInjectorInjectDll env = false) ∧
    (env.writeOk = false → dllInjectorInjectDll env = false) ∧
    (env.kernel32Ok = false → dllInjectorInjectDll env = false) ∧
    (env.resolveOk = false → dllInjectorInjectDll env = false) ∧
    (env.threadOk = false → dllInjectorInjectDll env = false) ∧
    (dllInjectorInjectDll env = false ↔
      (env.openOk = false ∨ env.allocOk = false ∨ env.writeOk = false ∨
       env.kernel32Ok = false ∨ env.resolveOk = false ∨
       env.threadOk = false)) ∧
    (∀ ec : Nat,
      dllInjectorInjectDll { env with exitCode := ec } =
        dllInjectorInjectDll env) := by
  obtain ⟨o, a, w, k, r, t, ec⟩ := env
  cases o <;> cases a <;> cases w <;> cases k <;> cases r <;> cases t <;>
    simp [dllInjectorInjectDll]

/-- C7 counterexample: the cited `DllInjector::InjectDll` never reads the
remote thread's exit value — with every stage succeeding but the
loaded-module reference null (exit code 0), it still returns true,
contradicting "a null loaded-module reference must make inject return
false". -/
theorem dll_injector_ignores_null_module :
    dllInjectorInjectDll ⟨true, true, true, true, true, true, 0⟩ = true := rfl

/-- C7 (amended): `GameDataInterface::InjectDLLIntoProcess` fails (and
registers no InjectionRecord) in each distinct case — process cannot be
opened, remote memory cannot be allocated or written, the loader entry point
cannot be resolved, the remote thread cannot be created, or the remote
thread's exit value is null — and these are exactly its failure cases;
`DllInjector::InjectDll` fails distinctly on its open / alloc / write /
kernel32-resolve / entry-point-resolve / thread-create stages, but it never
reads the remote thread's exit value: its result is independent of the
loaded-module reference, so a null reference does not make it fail. -/
theorem inject_failure_cases (procs : List InjectedProcess) (env : InjectEnv)
    (pid : Nat) (denv : DllInjectorEnv) :
    ((env.openOk = false → injectDLLIntoProcess procs env pid = (false, procs)) ∧
     (env.allocOk = false → injectDLLIntoProcess procs env pid = (false, procs)) ∧
     (env.writeOk = false → injectDLLIntoProcess procs env pid = (false, procs)) ∧
     (env.resolveOk = false → injectDLLIntoProcess procs env pid = (false, procs)) ∧
     (env.threadOk = false → injectDLLIntoProcess procs env pid = (false, procs)) ∧
     (env.exitCode = 0 → injectDLLIntoProcess procs env pid = (false, procs)) ∧
     ((injectDLLIntoProcess procs env pid).1 = false ↔
       (env.openOk = false ∨ env.allocOk = false ∨ env.writeOk = false ∨
        env.resolveOk = false ∨ env.threadOk = false ∨ env.exitCode = 0))) ∧
    ((denv.openOk = false → dllInjectorInjectDll denv = false) ∧
     (denv.allocOk = false → dllInjectorInjectDll denv = false) ∧
     (denv.writeOk = false → dllInjectorInjectDll denv = false) ∧
     (denv.kernel32Ok = false → dllInjectorInjectDll denv = false) ∧
     (denv.resolveOk = false → dllInjectorInjectDll denv = false) ∧
     (denv.threadOk = false → dllInjectorInjectDll denv = false) ∧
     (dllInjectorInjectDll denv = false ↔
       (denv.openOk = false ∨ denv.allocOk = false ∨ denv.writeOk = false ∨
        denv.kernel32Ok = false ∨ denv.resolveOk = false ∨
        denv.threadOk = false)) ∧
     (∀ ec : Nat,
       dllInjectorInjectDll { denv with exitCode := ec } =
         dllInjectorInjectDll denv)) :=
  ⟨injectDLLIntoProcess_failure_cases procs env pid,
   dllInjector_failure_cases denv⟩

theorem inject_failure_cases_witness :
    injectDLLIntoProcess [] ⟨false, true, true, true, true, 1, 7⟩ 42 = (false, []) ∧
    injectDLLIntoProcess [] ⟨true, true, true, true, true, 0, 7⟩ 42 = (false, []) ∧
    dllInjectorInjectDll ⟨false, true, true, true, true, true, 1⟩ = false :=
  ⟨(inject_failure_cases [] ⟨false, true, true, true, true, 1, 7⟩ 42
      ⟨true, true, true, true, true, true, 1⟩).1.1 rfl,
   (inject_failure_cases [] ⟨true, true, true, true, true, 0, 7⟩ 42
      ⟨true, true, true, true, true, true, 1⟩).1.2.2.2.2.2.1 rfl,
   (inject_failure_cases [] ⟨true, true, true, true, true, 1, 7⟩ 42
      ⟨false, true, true, true, true, true, 1⟩).2.1 rfl⟩

/-- C8: send returns true iff the full payload was accepted by the transport;
on a disconnected/invalid endpoint it returns false and the component's state
is unchanged (nothing is buffered for later delivery). The
`NamedPipeClient` variant satisfies the same iff under the synchronous
`WriteFile` contract (success means the full payload was written). -/
theorem send_accepts_iff (st : CommState) (msgLen : Nat)
    (writeResult : Option Nat) (pipeValid : Bool) :
    ((commSendMessage st msgLen writeResult).1 = true ↔
      (st.pipeValid = true ∧ writeResult = some msgLen)) ∧
    (commSendMessage st msgLen writeResult).2 = st ∧
    (st.pipeValid = false → (commSendMessage st msgLen writeResult).1 = false) ∧
    ((∀ n, writeResult = some n → n = msgLen) →
      (pipeClientSendMessage pipeValid writeResult = true ↔
        (pipeValid = true ∧ writeResult = some msgLen))) := by
  refine ⟨?_, ?_, ?_, ?_⟩
  · obtain ⟨pv⟩ := st
    cases pv with
    | false => simp [commSendMessage]
    | true =>
      cases writeResult with
      | none => simp [commSendMessage]
      | some _ => simp [commSendMessage]
  · obtain ⟨pv⟩ := st
    cases pv <;> cases writeResult <;> rfl
  · intro hpv
    simp [commSendMessage, hpv]
  · intro hsync
    cases pipeValid with
    | false => simp [pipeClientSendMessage]
    | true =>
      cases writeResult with
      | none => simp [pipeClientSendMessage]
      | some n =>
        have hn := hsync n rfl
        subst hn
        simp [pipeClientSendMessage]

theorem send_accepts_iff_witness :
    pipeClientSendMessage true (some 5) = true ∧
    (commSendMessage ⟨false⟩ 5 (some 5)).1 = false :=
  ⟨((send_accepts_iff ⟨true⟩ 5 (some 5) true).2.2.2
      (fun _ h => (Option.some.inj h).symm)).mpr ⟨rfl, rfl⟩,
   (send_accepts_iff ⟨false⟩ 5 (some 5) true).2.2.1 rfl⟩

/-- C2: inject and embed are idempotent — a pid that already has an
InjectionRecord makes `InjectDLL` return true with the records unchanged and
no remote operation performed; a window that already has an EmbeddingRecord
makes `EmbedGameWindow` return true with neither the window table nor the
record list mutated (in particular no second `SaveWindowState`). -/
theorem inject_embed_idempotent
    (procs : List InjectedProcess) (env : InjectEnv) (dllPathFound : Bool)
    (pid : Nat) (os : WinTable) (eenv : EmbedEnv)
    (mgr : List EmbeddedWindowInfo) (parentWindow gameWindow : Nat)
    (gw pw : WindowState) :
    (isDLLInjected procs pid = true →
      injectDLL procs env dllPathFound pid = (true, procs)) ∧
    (lookupWin os gameWindow = some gw →
     lookupWin os parentWindow = some pw →
     mgr.any (·.gameWindow == gameWindow) = true →
      embedGameWindow os eenv mgr parentWindow gameWindow = (true, os, mgr)) := by
  constructor
  · intro h
    simp [injectDLL, h]
  · intro h1 h2 h3
    simp [embedGameWindow, h1, h2, h3]

theorem inject_embed_idempotent_witness :
    injectDLL [⟨3, 1, 2⟩] ⟨true, true, true, true, true, 1, 1⟩ true 3 =
      (true, [⟨3, 1, 2⟩]) ∧
    embedGameWindow
        [(1, ⟨0, 0, 0, ⟨0, 0, 0, 0⟩, false⟩), (2, ⟨0, 0, 0, ⟨0, 0, 0, 0⟩, false⟩)]
        ⟨true, true, true⟩ [⟨2, 0, 0, 0, ⟨0, 0, 0, 0⟩, false⟩] 1 2 =
      (true,
       [(1, ⟨0, 0, 0, ⟨0, 0, 0, 0⟩, false⟩), (2, ⟨0, 0, 0, ⟨0, 0, 0, 0⟩, false⟩)],
       [⟨2, 0, 0, 0, ⟨0, 0, 0, 0⟩, false⟩]) :=
  ⟨(inject_embed_idempotent [⟨3, 1, 2⟩] ⟨true, true, true, true, true, 1, 1⟩
      true 3 [] ⟨true, true, true⟩ [] 0 0 ⟨0, 0, 0, ⟨0, 0, 0, 0⟩, false⟩
      ⟨0, 0, 0, ⟨0, 0, 0, 0⟩, false⟩).1 rfl,
   (inject_embed_idempotent [] ⟨true, true, true, true, true, 1, 1⟩ true 0
      [(1, ⟨0, 0, 0, ⟨0, 0, 0, 0⟩, false⟩), (2, ⟨0, 0, 0, ⟨0, 0, 0, 0⟩, false⟩)]
      ⟨true, true, true⟩ [⟨2, 0, 0, 0, ⟨0, 0, 0, 0⟩, false⟩] 1 2
      ⟨0, 0, 0, ⟨0, 0, 0, 0⟩, false⟩ ⟨0, 0, 0, ⟨0, 0, 0, 0⟩, false⟩).2
      rfl rfl rfl⟩

/-- C6: if the reparenting step fails (`SetParent` rejected),
`EmbedGameWindow` returns failure before any style mutation and before a
record is stored, leaving window table and records unchanged; when
`SetParent` succeeds the embedding succeeds and stores the record saved
before reparenting, for every outcome of the later position/repaint steps. -/
theorem reparent_failure_aborts
    (os : WinTable) (env : EmbedEnv) (mgr : List EmbeddedWindowInfo)
    (parentWindow gameWindow : Nat) (gw pw : WindowState)
    (h1 : lookupWin os gameWindow = some gw)
    (h2 : lookupWin os parentWindow = some pw)
    (h3 : mgr.any (·.gameWindow == gameWindow) = false) :
    (env.setParentOk = false →
      embedGameWindow os env mgr parentWindow gameWindow = (false, os, mgr)) ∧
    (env.setParentOk = true →
      (embedGameWindow os env mgr parentWindow gameWindow).1 = true ∧
      (embedGameWindow os env mgr parentWindow gameWindow).2.2 =
        mgr ++ [saveWindowState gameWindow gw]) := by
  obtain ⟨sp, gc, swp⟩ := env
  constructor
  · rintro rfl
    simp [embedGameWindow, h1, h2, h3]
  · rintro rfl
    cases gc <;> cases swp <;> simp [embedGameWindow, h1, h2, h3]

theorem reparent_failure_aborts_witness :
    embedGameWindow [(1, ⟨0, 5, 6, ⟨0, 0, 7, 8⟩, false⟩),
        (2, ⟨0, 5, 6, ⟨0, 0, 7, 8⟩, false⟩)]
      ⟨false, true, true⟩ [] 1 2 =
      (false,
       [(1, ⟨0, 5, 6, ⟨0, 0, 7, 8⟩, false⟩), (2, ⟨0, 5, 6, ⟨0, 0, 7, 8⟩, false⟩)],
       []) :=
  (reparent_failure_aborts
    [(1, ⟨0, 5, 6, ⟨0, 0, 7, 8⟩, false⟩), (2, ⟨0, 5, 6, ⟨0, 0, 7, 8⟩, false⟩)]
    ⟨false, true, true⟩ [] 1 2 ⟨0, 5, 6, ⟨0, 0, 7, 8⟩, false⟩
    ⟨0, 5, 6, ⟨0, 0, 7, 8⟩, false⟩ rfl rfl rfl).1 rfl

/-- The 100-element suffix of a list — the contents of a capacity-100 ring
buffer into which the whole list was pushed. -/
def suffix100 (l : List GameEvent) : List GameEvent :=
  l.drop (l.length - 100)

theorem parseGameEvent_fst (buf : List GameEvent) (tick : Nat)
    (data : List Char) :
    (parseGameEvent buf tick data).1 =
      if (buf ++ [mkGameEvent tick data]).length > 100 then
        (buf ++ [mkGameEvent tick data]).drop 1
      else buf ++ [mkGameEvent tick data] := rfl

theorem suffix100_step (L : List GameEvent) (e : GameEvent) :
    (if (suffix100 L ++ [e]).length > 100 then (suffix100 L ++ [e]).drop 1
     else suffix100 L ++ [e]) = suffix100 (L ++ [e]) := by
  unfold suffix100
  by_cases hn : L.length < 100
  · have h0 : L.length - 100 = 0 := by omega
    rw [h0, List.drop_zero]
    have h1 : ¬ (L ++ [e]).length > 100 := by
      simp only [List.length_append, List.length_cons, List.length_nil]
      omega
    have h2 : (L ++ [e]).length - 100 = 0 := by
      simp only [List.length_append, List.length_cons, List.length_nil]
      omega
    rw [if_neg h1, h2, List.drop_zero]
  · by_cases he : L.length = 100
    · have h0 : L.length - 100 = 0 := by omega
      rw [h0, List.drop_zero]
      have h1 : (L ++ [e]).length > 100 := by
        simp only [List.length_append, List.length_cons, List.length_nil]
        omega
      have h2 : (L ++ [e]).length - 100 = 1 := by
        simp only [List.length_append, List.length_cons, List.length_nil]
        omega
      rw [if_pos h1, h2]
    · have h1 : (L.drop (L.length - 100) ++ [e]).length > 100 := by
        simp only [List.length_append, List.length_drop, List.length_cons,
          List.length_nil]
        omega
      rw [if_pos h1]
      rw [List.drop_append_of_le_length (by
        simp only [List.length_drop]; omega)]
      rw [List.drop_drop]
      have h2 : (L ++ [e]).length - 100 = L.length - 100 + 1 := by
        simp only [List.length_append, List.length_cons, List.length_nil]
        omega
      rw [h2]
      rw [List.drop_append_of_le_length (by omega)]

theorem deliverEvents_suffix (items : List (Nat × List Char)) :
    ∀ L : List GameEvent,
      deliverEvents (suffix100 L) items =
        suffix100 (L ++ items.map (fun it => mkGameEvent it.1 it.2)) := by
  induction items with
  | nil =>
    intro L
    simp [deliverEvents]
  | cons it rest ih =>
    intro L
    show deliverEvents ((parseGameEvent (suffix100 L) it.1 it.2).1) rest = _
    rw [parseGameEvent_fst, suffix100_step, ih (L ++ [mkGameEvent it.1 it.2])]
    simp

/-- C4: after any sequence of GameEvent deliveries the retained event buffer
holds exactly the 100-suffix of all appended events — it never exceeds 100
items and always keeps the most-recently-appended events, discarding the
oldest first. -/
theorem event_buffer_ring_bound (items : List (Nat × List Char)) :
    deliverEvents [] items =
      (items.map (fun it => mkGameEvent it.1 it.2)).drop
        ((items.map (fun it => mkGameEvent it.1 it.2)).length - 100) ∧
    (deliverEvents [] items).length ≤ 100 := by
  have h := deliverEvents_suffix items []
  simp only [suffix100, List.length_nil, Nat.zero_sub, List.drop_zero,
    List.nil_append] at h
  refine ⟨h, ?_⟩
  rw [h]
  simp only [List.length_drop]
  omega

/-- C10: an event frame containing none of the recognized discriminator
substrings combo/kill/stock is still appended to the buffer and delivered,
carrying the default type `GAME_START` (enumerator 0) and the raw frame text
as its data. -/
theorem unknown_event_default_type (buf : List GameEvent) (tick : Nat)
    (data : List Char)
    (hcombo : containsSub ("combo".toList) data = false)
    (hkill : containsSub ("kill".toList) data = false)
    (hstock : containsSub ("stock".toList) data = false) :
    (parseGameEvent buf tick data).2.type = GameEventType.GAME_START ∧
    GameEventType.toCode (parseGameEvent buf tick data).2.type = 0 ∧
    (parseGameEvent buf tick data).2.data = data ∧
    (parseGameEvent buf tick data).2.timestamp = tick ∧
    (parseGameEvent buf tick data).1.getLast? =
      some ((parseGameEvent buf tick data).2) := by
  have hq1 : containsSub ("\"combo\"".toList) data = false := by
    have he : ("\"combo\"".toList) = '"' :: (("combo".toList) ++ ['"']) := rfl
    rw [he]
    exact containsSub_quoted_false hcombo
  have hq2 : containsSub ("\"kill\"".toList) data = false := by
    have he : ("\"kill\"".toList) = '"' :: (("kill".toList) ++ ['"']) := rfl
    rw [he]
    exact containsSub_quoted_false hkill
  have hq3 : containsSub ("\"stock\"".toList) data = false := by
    have he : ("\"stock\"".toList) = '"' :: (("stock".toList) ++ ['"']) := rfl
    rw [he]
    exact containsSub_quoted_false hstock
  simp only [parseGameEvent, hq1, hq2, hq3, Bool.false_eq_true, if_false]
  refine ⟨trivial, rfl, trivial, trivial, ?_⟩
  split
  · next hlong =>
    rw [List.drop_append_of_le_length (by
      simp only [List.length_append, List.length_cons, List.length_nil] at hlong
      omega)]
    exact List.getLast?_concat _
  · exact List.getLast?_concat _

theorem unknown_event_default_type_witness :
    (parseGameEvent [] 3 ("\x7b\"type\":\"event\",\"x\":1\x7d".toList)).2.type =
      GameEventType.GAME_START ∧
    GameEventType.toCode
      (parseGameEvent [] 3 ("\x7b\"type\":\"event\",\"x\":1\x7d".toList)).2.type = 0 ∧
    (parseGameEvent [] 3 ("\x7b\"type\":\"event\",\"x\":1\x7d".toList)).2.data =
      ("\x7b\"type\":\"event\",\"x\":1\x7d".toList) ∧
    (parseGameEvent [] 3 ("\x7b\"type\":\"event\",\"x\":1\x7d".toList)).2.timestamp = 3 ∧
    (parseGameEvent [] 3 ("\x7b\"type\":\"event\",\"x\":1\x7d".toList)).1.getLast? =
      some ((parseGameEvent [] 3 ("\x7b\"type\":\"event\",\"x\":1\x7d".toList)).2) :=
  unknown_event_default_type [] 3 _ (by decide) (by decide) (by decide)

/-- C9 counterexample: a gameState frame whose `"frame":` value slice is
empty makes `std::stoi` throw — the parser is not exception-free on every
input frame. -/
theorem malformed_frame_crash :
    processIncomingData 7 [] 0
      ("\x7b\"type\":\"gameState\",\"frame\":\x7d".toList) = .error () := rfl

/-- C9 (amended): a gameState frame whose `"frame":` key is followed by a
digit string delimited by `,` or `}` whose value fits in a 32-bit `int`
updates the frame counter to that numeric value (e.g. frame 120 sets it to
120); a frame with no `"frame":` field leaves the counter unchanged without
error; but a present `"frame":` field whose value slice holds no parsable
integer raises `std::invalid_argument`, and a digit string whose value
exceeds `INT_MAX` raises `std::out_of_range`. -/
theorem frame_counter_update (fc : Int) (buf : List GameEvent) (tick : Nat)
    (data : List Char) (p : Nat) (ds : List Char) (d : Char)
    (suf : List Char) :
    (findSub ("\"frame\":".toList) data = some p →
     data.drop (p + 8) = ds ++ d :: suf →
     ds ≠ [] → (∀ c ∈ ds, c.isDigit = true) →
     digitsToNat ds ≤ 2147483647 →
     ([',', '}'].contains d) = true →
     parseGameStateUpdate fc data = .ok ((digitsToNat ds : Int))) ∧
    (findSub ("\"frame\":".toList) data = none →
     parseGameStateUpdate fc data = .ok fc) ∧
    (containsSub ("\"type\":\"gameState\"".toList) data = true →
     processIncomingData fc buf tick data =
       (parseGameStateUpdate fc data).map (fun v => (v, buf, none))) ∧
    processIncomingData fc buf tick
        ("\x7b\"type\":\"gameState\",\"frame\":120\x7d".toList) =
      .ok (120, buf, none) ∧
    parseGameStateUpdate fc
        ("\x7b\"type\":\"gameState\",\"frame\":\x7d".toList) = .error () ∧
    parseGameStateUpdate fc
        ("\x7b\"type\":\"gameState\",\"frame\":9999999999\x7d".toList) =
      .error () := by
  refine ⟨?_, ?_, ?_, rfl, rfl, rfl⟩
  · intro h1 h2 h3 h4 hb h5
    unfold parseGameStateUpdate
    rw [h1]
    show (match (findCharIn [',', '}'] (data.drop (p + 8))).map (· + (p + 8)) with
      | none => Except.ok fc
      | some endPos =>
        match stoiModel ((data.drop (p + 8)).take (endPos - (p + 8))) with
        | none => Except.error ()
        | some v => Except.ok v) = Except.ok ((digitsToNat ds : Int))
    rw [h2]
    rw [findCharIn_append suf (fun c hc => isDigit_not_delim (h4 c hc)) h5]
    show (match stoiModel ((ds ++ d :: suf).take (ds.length + (p + 8) - (p + 8))) with
      | none => Except.error ()
      | some v => Except.ok v) = Except.ok ((digitsToNat ds : Int))
    have hidx : ds.length + (p + 8) - (p + 8) = ds.length := by omega
    rw [hidx]
    have htake : (ds ++ d :: suf).take ds.length = ds := List.take_left ds _
    rw [htake, stoiModel_digits h3 h4 hb]
  · intro h
    unfold parseGameStateUpdate
    rw [h]
  · intro h
    unfold processIncomingData
    rw [if_pos h]

theorem frame_counter_update_witness :
    parseGameStateUpdate 5
        ("\x7b\"type\":\"gameState\",\"frame\":120\x7d".toList) = .ok 120 ∧
    parseGameStateUpdate 9 ("\x7b\x7d".toList) = .ok 9 :=
  ⟨(frame_counter_update 5 [] 0
      ("\x7b\"type\":\"gameState\",\"frame\":120\x7d".toList) 20 ("120".toList)
      '}' [] ).1 rfl rfl (by decide) (by decide) (by decide) (by decide),
   (frame_counter_update 9 [] 0 ("\x7b\x7d".toList) 0 [] 'x' []).2.1 rfl⟩

theorem lookupWin_eq_none_of_not_isWindow {os : WinTable} {h : Nat}
    (hw : isWindow os h = false) : lookupWin os h = none := by
  unfold isWindow at hw
  cases he : lookupWin os h with
  | none => rfl
  | some w => rw [he] at hw; simp at hw

/-- C3 counterexample: `RestoreGameWindow` on a dead window that still has an
EmbeddingRecord does not fail — it returns true and discards the record. -/
theorem dead_restore_succeeds :
    (restoreGameWindow [] [⟨7, 0, 0, 0, ⟨0, 0, 0, 0⟩, false⟩] 7).1 = true ∧
    (restoreGameWindow [] [⟨7, 0, 0, 0, ⟨0, 0, 0, 0⟩, false⟩] 7).2.2 = [] ∧
    isWindow [] 7 = false :=
  ⟨rfl, rfl, rfl⟩

/-- C3 (amended): operations that check liveness — embed (either window
dead), updatePosition, `RestoreWindowState`, inject (process cannot be
opened) — fail or no-op with no mutation on a dead reference, and restore
and eject with no record fail without mutation; but `RestoreGameWindow` on a
dead window that still has a record returns true and deletes the record
(mutating no window state), and `EjectDLL` never checks process liveness —
with a record present it returns true and removes the record. -/
theorem dead_reference_behavior
    (os : WinTable) (env : EmbedEnv) (mgr : List EmbeddedWindowInfo)
    (parentWindow gameWindow : Nat) (area : Rect)
    (info : EmbeddedWindowInfo) (procs : List InjectedProcess)
    (ienv : InjectEnv) (dllPathFound : Bool) (pid : Nat) :
    (isWindow os gameWindow = false →
      embedGameWindow os env mgr parentWindow gameWindow = (false, os, mgr)) ∧
    (isWindow os parentWindow = false →
      embedGameWindow os env mgr parentWindow gameWindow = (false, os, mgr)) ∧
    (isWindow os gameWindow = false →
      updateGameWindowPosition os gameWindow area = os) ∧
    (isWindow os info.gameWindow = false →
      restoreWindowState os info = os) ∧
    (mgr.any (·.gameWindow == gameWindow) = false →
      restoreGameWindow os mgr gameWindow = (false, os, mgr)) ∧
    (mgr.find? (·.gameWindow == gameWindow) = some info →
     isWindow os info.gameWindow = false →
      restoreGameWindow os mgr gameWindow =
        (true, os, mgr.eraseP (·.gameWindow == gameWindow))) ∧
    (isDLLInjected procs pid = false → ienv.openOk = false →
      injectDLL procs ienv dllPathFound pid = (false, procs)) ∧
    (isDLLInjected procs pid = false →
      ejectDLLFromProcess procs pid = (false, procs)) ∧
    (isDLLInjected procs pid = true →
      (ejectDLLFromProcess procs pid).1 = true) := by
  refine ⟨?_, ?_, ?_, ?_, ?_, ?_, ?_, ?_, ?_⟩
  · intro hg
    simp [embedGameWindow, lookupWin_eq_none_of_not_isWindow hg]
  · intro hp
    cases hg : lookupWin os gameWindow with
    | none => simp [embedGameWindow, hg]
    | some gw =>
      simp [embedGameWindow, hg, lookupWin_eq_none_of_not_isWindow hp]
  · intro hg
    simp [updateGameWindowPosition, hg]
  · intro hg
    simp [restoreWindowState, hg]
  · intro hnone
    have hfind : mgr.find? (·.gameWindow == gameWindow) = none := by
      rw [List.find?_eq_none]
      intro x hx
      have := List.any_eq_false.mp hnone x hx
      simp [this]
    simp [restoreGameWindow, hfind]
  · intro hfind hdead
    simp [restoreGameWindow, hfind, restoreWindowState, hdead]
  · intro hrec hopen
    cases dllPathFound <;>
      simp [injectDLL, hrec, injectDLLIntoProcess, hopen]
  · intro hrec
    simp [ejectDLLFromProcess, hrec]
  · intro hrec
    simp [ejectDLLFromProcess, hrec]

theorem dead_reference_behavior_witness :
    embedGameWindow [] ⟨true, true, true⟩ [] 1 2 = (false, [], []) ∧
    updateGameWindowPosition [] 2 ⟨0, 0, 3, 3⟩ = [] ∧
    restoreGameWindow [] [⟨7, 0, 0, 0, ⟨0, 0, 0, 0⟩, false⟩] 7 =
      (true, [], []) ∧
    injectDLL [] ⟨false, true, true, true, true, 1, 1⟩ true 9 = (false, []) ∧
    ejectDLLFromProcess [] 9 = (false, []) :=
  ⟨(dead_reference_behavior [] ⟨true, true, true⟩ [] 1 2 ⟨0, 0, 3, 3⟩
      ⟨7, 0, 0, 0, ⟨0, 0, 0, 0⟩, false⟩ [] ⟨false, true, true, true, true, 1, 1⟩
      true 9).1 rfl,
   (dead_reference_behavior [] ⟨true, true, true⟩ [] 1 2 ⟨0, 0, 3, 3⟩
      ⟨7, 0, 0, 0, ⟨0, 0, 0, 0⟩, false⟩ [] ⟨false, true, true, true, true, 1, 1⟩
      true 9).2.2.1 rfl,
   (dead_reference_behavior [] ⟨true, true, true⟩
      [⟨7, 0, 0, 0, ⟨0, 0, 0, 0⟩, false⟩] 1 7 ⟨0, 0, 3, 3⟩
      ⟨7, 0, 0, 0, ⟨0, 0, 0, 0⟩, false⟩ [] ⟨false, true, true, true, true, 1, 1⟩
      true 9).2.2.2.2.2.1 rfl rfl,
   (dead_reference_behavior [] ⟨true, true, true⟩ [] 1 2 ⟨0, 0, 3, 3⟩
      ⟨7, 0, 0, 0, ⟨0, 0, 0, 0⟩, false⟩ [] ⟨false, true, true, true, true, 1, 1⟩
      true 9).2.2.2.2.2.2.1 rfl rfl,
   (dead_reference_behavior [] ⟨true, true, true⟩ [] 1 2 ⟨0, 0, 3, 3⟩
      ⟨7, 0, 0, 0, ⟨0, 0, 0, 0⟩, false⟩ [] ⟨false, true, true, true, true, 1, 1⟩
      true 9).2.2.2.2.2.2.2.1 rfl⟩

theorem lookupWin_restoreWindowState_ne (os : WinTable)
    (info : EmbeddedWindowInfo) {w : Nat} (hne : info.gameWindow ≠ w) :
    lookupWin (restoreWindowState os info) w = lookupWin os w := by
  unfold restoreWindowState
  split
  · exact lookupWin_updWin_ne os _ (fun e => hne e.symm)
  · rfl

theorem lookupWin_foldl_restore_ne (L : List EmbeddedWindowInfo) :
    ∀ (os : WinTable) (w : Nat), (∀ i ∈ L, i.gameWindow ≠ w) →
      lookupWin (L.foldl restoreWindowState os) w = lookupWin os w := by
  induction L with
  | nil => intro os w _; rfl
  | cons i rest ih =>
    intro os w h
    rw [List.foldl_cons, ih _ _ (fun j hj => h j (by simp [hj]))]
    exact lookupWin_restoreWindowState_ne os i (h i (by simp))

theorem restoreWindowState_lookup (os : WinTable) (hwnd : Nat)
    (gw x : WindowState) (hl : lookupWin os hwnd = some x)
    (hm : x.maximized = gw.maximized) :
    lookupWin (restoreWindowState os (saveWindowState hwnd gw)) hwnd =
      some gw := by
  have hw : isWindow os hwnd = true := by simp [isWindow, hl]
  simp only [restoreWindowState, saveWindowState, hw, if_true]
  rw [lookupWin_updWin_self, hl]
  obtain ⟨gp, gs, ge, gr, gm⟩ := gw
  obtain ⟨xp, xs, xe, xr, xm⟩ := x
  simp only at hm
  subst hm
  cases xm <;> simp

theorem embed_success_state
    (os : WinTable) (env : EmbedEnv) (mgr : List EmbeddedWindowInfo)
    (parentWindow gameWindow : Nat) (gw pw : WindowState)
    (h1 : lookupWin os gameWindow = some gw)
    (h2 : lookupWin os parentWindow = some pw)
    (h3 : mgr.any (·.gameWindow == gameWindow) = false)
    (hsp : env.setParentOk = true) :
    ∃ os3,
      embedGameWindow os env mgr parentWindow gameWindow =
        (true, os3, mgr ++ [saveWindowState gameWindow gw]) ∧
      ∃ x, lookupWin os3 gameWindow = some x ∧
        x.maximized = gw.maximized := by
  obtain ⟨sp, gc, swp⟩ := env
  simp only at hsp
  subst hsp
  cases gc <;> cases swp <;>
    simp only [embedGameWindow, h1, h2, h3, Bool.false_eq_true, if_false,
      Bool.not_true, if_true, Bool.true_eq_false] <;>
    refine ⟨_, rfl, ?_⟩ <;>
    simp only [applyEmbeddedStyle] <;>
    (repeat rw [lookupWin_updWin_self]) <;>
    rw [h1] <;>
    exact ⟨_, rfl, rfl⟩

/-- C1: restoring an embedded window (via `RestoreGameWindow` or via the
destructor's sweep over all still-tracked records) writes the parent, style,
extended style, bounding rectangle, and maximized state captured by
`SaveWindowState` at embed time back to the window, byte-for-byte restoring
its pre-embed state, and then deletes the EmbeddingRecord. -/
theorem embed_restore_roundtrip
    (os : WinTable) (env : EmbedEnv) (mgr : List EmbeddedWindowInfo)
    (parentWindow gameWindow : Nat) (gw pw : WindowState)
    (h1 : lookupWin os gameWindow = some gw)
    (h2 : lookupWin os parentWindow = some pw)
    (h3 : mgr.any (·.gameWindow == gameWindow) = false)
    (hsp : env.setParentOk = true) :
    ∃ os3,
      embedGameWindow os env mgr parentWindow gameWindow =
        (true, os3, mgr ++ [saveWindowState gameWindow gw]) ∧
      restoreGameWindow os3 (mgr ++ [saveWindowState gameWindow gw])
          gameWindow =
        (true, restoreWindowState os3 (saveWindowState gameWindow gw), mgr) ∧
      lookupWin (restoreWindowState os3 (saveWindowState gameWindow gw))
          gameWindow = some gw ∧
      lookupWin
          (windowManagerShutdown os3
            (mgr ++ [saveWindowState gameWindow gw])).1 gameWindow = some gw ∧
      (windowManagerShutdown os3
          (mgr ++ [saveWindowState gameWindow gw])).2 = [] := by
  obtain ⟨os3, he, x, hx, hxm⟩ :=
    embed_success_state os env mgr parentWindow gameWindow gw pw h1 h2 h3 hsp
  have hnot : ∀ i ∈ mgr, (i.gameWindow == gameWindow) = false := by
    intro i hi
    simpa using List.any_eq_false.mp h3 i hi
  have hnot' : ∀ i ∈ mgr, i.gameWindow ≠ gameWindow := by
    intro i hi
    simpa using hnot i hi
  have hpev : ((saveWindowState gameWindow gw).gameWindow == gameWindow) =
      true := by simp [saveWindowState]
  have hfind : (mgr ++ [saveWindowState gameWindow gw]).find?
      (·.gameWindow == gameWindow) = some (saveWindowState gameWindow gw) := by
    rw [find?_append_right _ _ _ hnot]
    simp [List.find?, hpev]
  have herase : (mgr ++ [saveWindowState gameWindow gw]).eraseP
      (·.gameWindow == gameWindow) = mgr := by
    rw [List.eraseP_append_right _ (by
      intro b hb
      simp [hnot b hb])]
    simp [List.eraseP_cons, hpev]
  refine ⟨os3, he, ?_, ?_, ?_, rfl⟩
  · unfold restoreGameWindow
    rw [hfind, herase]
  · exact restoreWindowState_lookup os3 gameWindow gw x hx hxm
  · unfold windowManagerShutdown
    simp only [List.foldl_append, List.foldl_cons, List.foldl_nil]
    have hfold : lookupWin (mgr.foldl restoreWindowState os3) gameWindow =
        some x := by
      rw [lookupWin_foldl_restore_ne mgr os3 gameWindow hnot']
      exact hx
    exact restoreWindowState_lookup _ gameWindow gw x hfold hxm

theorem embed_restore_roundtrip_witness :
    ∃ os3,
      embedGameWindow
          [(1, ⟨0, 11, 12, ⟨1, 2, 3, 4⟩, true⟩),
           (2, ⟨9, 21, 22, ⟨5, 6, 7, 8⟩, true⟩)]
          ⟨true, true, true⟩ [] 1 2 =
        (true, os3, [] ++ [saveWindowState 2 ⟨9, 21, 22, ⟨5, 6, 7, 8⟩, true⟩]) ∧
      restoreGameWindow os3
          ([] ++ [saveWindowState 2 ⟨9, 21, 22, ⟨5, 6, 7, 8⟩, true⟩]) 2 =
        (true,
         restoreWindowState os3
           (saveWindowState 2 ⟨9, 21, 22, ⟨5, 6, 7, 8⟩, true⟩), []) ∧
      lookupWin
          (restoreWindowState os3
            (saveWindowState 2 ⟨9, 21, 22, ⟨5, 6, 7, 8⟩, true⟩)) 2 =
        some ⟨9, 21, 22, ⟨5, 6, 7, 8⟩, true⟩ ∧
      lookupWin
          (windowManagerShutdown os3
            ([] ++ [saveWindowState 2 ⟨9, 21, 22, ⟨5, 6, 7, 8⟩, true⟩])).1 2 =
        some ⟨9, 21, 22, ⟨5, 6, 7, 8⟩, true⟩ ∧
      (windowManagerShutdown os3
          ([] ++ [saveWindowState 2 ⟨9, 21, 22, ⟨5, 6, 7, 8⟩, true⟩])).2 = [] :=
  embed_restore_roundtrip
    [(1, ⟨0, 11, 12, ⟨1, 2, 3, 4⟩, true⟩), (2, ⟨9, 21, 22, ⟨5, 6, 7, 8⟩, true⟩)]
    ⟨true, true, true⟩ [] 1 2 ⟨9, 21, 22, ⟨5, 6, 7, 8⟩, true⟩
    ⟨0, 11, 12, ⟨1, 2, 3, 4⟩, true⟩ rfl rfl rfl rfl

/-- C5 counterexample: at elapsed time exactly equal to the duration
(elapsed = D = 5000 ms) the message is still in the draw set — the paint
pass erases only when elapsed strictly exceeds the duration, so the claimed
"absent for elapsed ≥ D" fails at elapsed = D. -/
theorem message_present_at_full_duration :
    dwordSub 5000 0 = 5000 ∧
    paintPrune 5000
      [{ text := "GG".toList, startTime := 0, duration := 5000,
         position := MessagePos.TOP_RIGHT, category := MessageCategory.GENERAL,
         priority := MessagePriority.NORMAL, alpha := 1 }] =
      [{ text := "GG".toList, startTime := 0, duration := 5000,
         position := MessagePos.TOP_RIGHT, category := MessageCategory.GENERAL,
         priority := MessagePriority.NORMAL, alpha := 1 }] :=
  ⟨rfl, rfl⟩

/-- C5 (amended): an ActiveMessage with duration D and start time t0 is in
the draw set at paint time t exactly while the elapsed time t - t0 is in
[0, D] — it is erased only when elapsed strictly exceeds D; its draw alpha
is 1.0 for elapsed ≤ 0.8·D and decreases linearly from 1.0 at 0.8·D to 0 at
elapsed = D; conversion stamps the start time and alpha 1 while keeping the
duration. -/
theorem message_lifetime_amended (now : Nat) (m : ActiveMessage)
    (msgs : List ActiveMessage) (h0 : m.startTime ≤ now)
    (h1 : now < 2 ^ 32) (hD : 0 < m.duration) :
    (m ∈ paintPrune now msgs ↔
      m ∈ msgs ∧ now - m.startTime ≤ m.duration) ∧
    (5 * (now - m.startTime) ≤ 4 * m.duration →
      fadeAlpha now m.startTime m.duration = 1) ∧
    (4 * m.duration ≤ 5 * (now - m.startTime) →
     now - m.startTime ≤ m.duration →
      fadeAlpha now m.startTime m.duration =
        ((m.duration : ℚ) - ((now - m.startTime : Nat) : ℚ)) * 5 /
          (m.duration : ℚ)) ∧
    (∀ om : OverlayMessage,
      (convertMessage now om).startTime = now ∧
      (convertMessage now om).duration = om.duration ∧
      (convertMessage now om).alpha = 1) := by
  have hdw := dwordSub_of_le h0 h1
  have hDQ : (0 : ℚ) < (m.duration : ℚ) := by exact_mod_cast hD
  have hDne : (m.duration : ℚ) ≠ 0 := ne_of_gt hDQ
  refine ⟨?_, ?_, ?_, fun om => ⟨rfl, rfl, rfl⟩⟩
  · simp [paintPrune, List.mem_filter, hdw]
  · intro hle
    unfold fadeAlpha
    rw [hdw]
    dsimp only
    have htp : (((now - m.startTime : Nat) : ℚ) / (m.duration : ℚ)) ≤ 4/5 := by
      rw [div_le_div_iff₀ hDQ (by norm_num : (0:ℚ) < 5)]
      have hc : ((5 * (now - m.startTime) : Nat) : ℚ) ≤
          ((4 * m.duration : Nat) : ℚ) := by exact_mod_cast hle
      push_cast at hc
      linarith
    rw [if_neg (not_lt.mpr htp)]
    norm_num
  · intro hge hle
    unfold fadeAlpha
    rw [hdw]
    dsimp only
    have hgeQ : 4 * (m.duration : ℚ) ≤
        5 * ((now - m.startTime : Nat) : ℚ) := by
      have hc : ((4 * m.duration : Nat) : ℚ) ≤
          ((5 * (now - m.startTime) : Nat) : ℚ) := by exact_mod_cast hge
      push_cast at hc
      linarith
    have hleQ : ((now - m.startTime : Nat) : ℚ) ≤ (m.duration : ℚ) := by
      exact_mod_cast hle
    by_cases htp : (((now - m.startTime : Nat) : ℚ) / (m.duration : ℚ)) > 4/5
    · rw [if_pos htp]
      have halpha : 1 - (((now - m.startTime : Nat) : ℚ) / (m.duration : ℚ)
            - 4/5) / (1/5) =
          ((m.duration : ℚ) - ((now - m.startTime : Nat) : ℚ)) * 5 /
            (m.duration : ℚ) := by
        field_simp
        ring
      rw [halpha]
      have hv1 : ((m.duration : ℚ) - ((now - m.startTime : Nat) : ℚ)) * 5 /
          (m.duration : ℚ) ≤ 1 := by
        rw [div_le_one hDQ]
        linarith
      have hv0 : 0 ≤ ((m.duration : ℚ) - ((now - m.startTime : Nat) : ℚ)) * 5 /
          (m.duration : ℚ) := by
        apply div_nonneg _ (le_of_lt hDQ)
        nlinarith
      rw [min_eq_right hv1, max_eq_right hv0]
    · rw [if_neg htp]
      push_neg at htp
      have hle5 : ((now - m.startTime : Nat) : ℚ) * 5 ≤
          4 * (m.duration : ℚ) := by
        exact (div_le_div_iff₀ hDQ (by norm_num : (0:ℚ) < 5)).mp htp
      have h5 : 5 * ((now - m.startTime : Nat) : ℚ) =
          4 * (m.duration : ℚ) := by linarith
      have hone : ((m.duration : ℚ) - ((now - m.startTime : Nat) : ℚ)) * 5 /
          (m.duration : ℚ) = 1 := by
        rw [div_eq_iff hDne]
        linarith
      rw [hone]
      norm_num

theorem message_lifetime_amended_witness :
    fadeAlpha 4500 0 5000 = ((5000 : ℚ) - ((4500 - 0 : Nat) : ℚ)) * 5 /
      ((5000 : Nat) : ℚ) ∧
    fadeAlpha 1000 0 5000 = 1 :=
  ⟨(message_lifetime_amended 4500
      { text := "GG".toList, startTime := 0, duration := 5000,
        position := MessagePos.TOP_RIGHT, category := MessageCategory.GENERAL,
        priority := MessagePriority.NORMAL, alpha := 1 } []
      (Nat.zero_le _) (by norm_num) (by norm_num)).2.2.1
      (by norm_num) (by norm_num),
   (message_lifetime_amended 1000
      { text := "GG".toList, startTime := 0, duration := 5000,
        position := MessagePos.TOP_RIGHT, category := MessageCategory.GENERAL,
        priority := MessagePriority.NORMAL, alpha := 1 } []
      (Nat.zero_le _) (by norm_num) (by norm_num)).2.1 (by norm_num)⟩

end CoachClippi
